import Mathlib

/-!
# Verification of the SaaS backend core (src/main.py)

Shallow embedding of the authentication / ownership-scoped CRUD core of the
FastAPI application in `src/main.py`, together with proofs of the spec claims.

Modelling conventions:
* The Mongo document store is a pair of lists (`user` and `project` collections);
  `find_one` is `List.find?` (first match in insertion order), `insert_one`
  appends, `update_one`/`delete_one` touch the first matching document.
* Timestamps are naturals drawn from a monotone clock threaded through the
  state; each call to `_now()` returns the current clock value and bumps it.
* Randomness (`secrets.token_hex`) is passed in as explicit arguments (the
  drawn values); theorems quantify over them, with freshness hypotheses where
  the code relies on non-collision of random tokens.
* `HTTPException` is an error value carrying the spec's error kind (§7
  taxonomy: the gateway maps kinds to HTTP status codes) and the exact detail
  message raised by the source.
* SHA-256 is implemented in full (FIPS 180-4) over UTF-8 byte lists, mirroring
  `hashlib.sha256` as used by `_hash_password`.
-/

namespace SaaS

/-! ## SHA-256 (FIPS 180-4), as `hashlib.sha256(...).hexdigest()` -/

def M32 : Nat := 4294967296

def add32 (a b : Nat) : Nat := (a + b) % M32

def rotr32 (n x : Nat) : Nat := ((x >>> n) ||| (x <<< (32 - n))) % M32

def not32 (x : Nat) : Nat := 4294967295 ^^^ x

def bsig0 (x : Nat) : Nat := (rotr32 2 x) ^^^ (rotr32 13 x) ^^^ (rotr32 22 x)

def bsig1 (x : Nat) : Nat := (rotr32 6 x) ^^^ (rotr32 11 x) ^^^ (rotr32 25 x)

def ssig0 (x : Nat) : Nat := (rotr32 7 x) ^^^ (rotr32 18 x) ^^^ (x >>> 3)

def ssig1 (x : Nat) : Nat := (rotr32 17 x) ^^^ (rotr32 19 x) ^^^ (x >>> 10)

def chF (x y z : Nat) : Nat := (x &&& y) ^^^ ((not32 x) &&& z)

def majF (x y z : Nat) : Nat := (x &&& y) ^^^ (x &&& z) ^^^ (y &&& z)

/-- The 64 SHA-256 round constants of FIPS 180-4 §4.2.2 (fractional parts of
the cube roots of the first 64 primes), written in decimal. -/
def sha256K : List Nat :=
  [1116352408, 1899447441, 3049323471, 3921009573, 961987163,
   1508970993, 2453635748, 2870763221, 3624381080, 310598401,
   607225278, 1426881987, 1925078388, 2162078206, 2614888103,
   3248222580, 3835390401, 4022224774, 264347078, 604807628,
   770255983, 1249150122, 1555081692, 1996064986, 2554220882,
   2821834349, 2952996808, 3210313671, 3336571891, 3584528711,
   113926993, 338241895, 666307205, 773529912, 1294757372,
   1396182291, 1695183700, 1986661051, 2177026350, 2456956037,
   2730485921, 2820302411, 3259730800, 3345764771, 3516065817,
   3600352804, 4094571909, 275423344, 430227734, 506948616,
   659060556, 883997877, 958139571, 1322822218, 1537002063,
   1747873779, 1955562222, 2024104815, 2227730452, 2361852424,
   2428436474, 2756734187, 3204031479, 3329325298]

structure Hash8 where
  a : Nat
  b : Nat
  c : Nat
  d : Nat
  e : Nat
  f : Nat
  g : Nat
  h : Nat
deriving Repr, DecidableEq

/-- The SHA-256 initial hash value of FIPS 180-4 §5.3.3, in decimal. -/
def initH : Hash8 :=
  ⟨1779033703, 3144134277, 1013904242, 2773480762,
   1359893119, 2600822924, 528734635, 1541459225⟩

def be64bytes (n : Nat) : List Nat :=
  [(n >>> 56) % 256, (n >>> 48) % 256, (n >>> 40) % 256, (n >>> 32) % 256,
   (n >>> 24) % 256, (n >>> 16) % 256, (n >>> 8) % 256, n % 256]

def padMessage (msg : List Nat) : List Nat :=
  msg ++ [128] ++ List.replicate ((119 - msg.length % 64) % 64) 0 ++ be64bytes (msg.length * 8)

def chunks64Aux : Nat → List Nat → List (List Nat)
  | 0, _ => []
  | _, [] => []
  | fuel + 1, l => l.take 64 :: chunks64Aux fuel (l.drop 64)

def chunks64 (l : List Nat) : List (List Nat) :=
  chunks64Aux (l.length + 1) l

def bytesToWords : List Nat → List Nat
  | b0 :: b1 :: b2 :: b3 :: rest =>
      (((b0 * 256 + b1) * 256 + b2) * 256 + b3) :: bytesToWords rest
  | _ => []

def scheduleStep (w : List Nat) : List Nat :=
  let t := w.length
  w ++ [add32 (add32 (w.getD (t - 16) 0) (ssig0 (w.getD (t - 15) 0)))
              (add32 (w.getD (t - 7) 0) (ssig1 (w.getD (t - 2) 0)))]

def schedule (w16 : List Nat) : List Nat :=
  (List.range 48).foldl (fun acc _ => scheduleStep acc) w16

def compressRound (st : Hash8) (k w : Nat) : Hash8 :=
  let t1 := add32 st.h (add32 (bsig1 st.e) (add32 (chF st.e st.f st.g) (add32 k w)))
  let t2 := add32 (bsig0 st.a) (majF st.a st.b st.c)
  ⟨add32 t1 t2, st.a, st.b, st.c, add32 st.d t1, st.e, st.f, st.g⟩

def compressChunk (st : Hash8) (chunk : List Nat) : Hash8 :=
  let ws := schedule (bytesToWords chunk)
  let fin := (sha256K.zip ws).foldl (fun s kw => compressRound s kw.1 kw.2) st
  ⟨add32 st.a fin.a, add32 st.b fin.b, add32 st.c fin.c, add32 st.d fin.d,
   add32 st.e fin.e, add32 st.f fin.f, add32 st.g fin.g, add32 st.h fin.h⟩

def sha256Words (msg : List Nat) : Hash8 :=
  (chunks64 (padMessage msg)).foldl compressChunk initH

def hexDigitChar : Nat → Char
  | 0 => '0' | 1 => '1' | 2 => '2' | 3 => '3' | 4 => '4' | 5 => '5' | 6 => '6' | 7 => '7'
  | 8 => '8' | 9 => '9' | 10 => 'a' | 11 => 'b' | 12 => 'c' | 13 => 'd' | 14 => 'e' | _ => 'f'

def toHex8 (x : Nat) : List Char :=
  [hexDigitChar ((x >>> 28) % 16), hexDigitChar ((x >>> 24) % 16),
   hexDigitChar ((x >>> 20) % 16), hexDigitChar ((x >>> 16) % 16),
   hexDigitChar ((x >>> 12) % 16), hexDigitChar ((x >>> 8) % 16),
   hexDigitChar ((x >>> 4) % 16), hexDigitChar (x % 16)]

def sha256hexBytes (msg : List Nat) : String :=
  let w := sha256Words msg
  String.mk (toHex8 w.a ++ toHex8 w.b ++ toHex8 w.c ++ toHex8 w.d ++
             toHex8 w.e ++ toHex8 w.f ++ toHex8 w.g ++ toHex8 w.h)

/-- UTF-8 encoding of a single character, as `str.encode("utf-8")` does per
code point. -/
def utf8Bytes (c : Char) : List Nat :=
  let n := c.toNat
  if n < 0x80 then [n]
  else if n < 0x800 then
    [0xC0 ||| (n >>> 6), 0x80 ||| (n &&& 0x3F)]
  else if n < 0x10000 then
    [0xE0 ||| (n >>> 12), 0x80 ||| ((n >>> 6) &&& 0x3F), 0x80 ||| (n &&& 0x3F)]
  else
    [0xF0 ||| (n >>> 18), 0x80 ||| ((n >>> 12) &&& 0x3F),
     0x80 ||| ((n >>> 6) &&& 0x3F), 0x80 ||| (n &&& 0x3F)]

def strBytes (s : String) : List Nat :=
  s.data.foldr (fun c acc => utf8Bytes c ++ acc) []

/-- `hashlib.sha256(s.encode("utf-8")).hexdigest()`. -/
def sha256hex (s : String) : String :=
  sha256hexBytes (strBytes s)

/-- Embedding of `_hash_password(password, salt=None)` (src/main.py lines
26–31).  `freshSalt` stands for the `secrets.token_hex(16)` value drawn when
`salt` is falsy (absent or the empty string: Python `if not salt`).  Returns
`(hexdigest, salt_used)`. -/
def hashPassword (password : String) (salt : Option String) (freshSalt : String) :
    String × String :=
  let s := match salt with
    | none => freshSalt
    | some st => if st = "" then freshSalt else st
  (sha256hex (s ++ password), s)

/-! ## Error model

The §7 taxonomy of the spec: the Request Gateway (FastAPI, external to the
core) maps each kind to an HTTP status code (`conflict` is raised by the
source as status 400 "Email already registered"; `badRequest` as 400;
`unauthorized` as 401; `notFound` as 404).  `internal` stands for an
unhandled Python exception (HTTP 500); it is unreachable in the states the
theorems consider.  `detail` is the exact message string raised by the
source. -/

inductive ErrKind where
  | badRequest
  | unauthorized
  | notFound
  | conflict
  | internal
deriving Repr, DecidableEq

structure Err where
  kind : ErrKind
  detail : String
deriving Repr, DecidableEq

/-- Modelled from the spec: FastAPI/pydantic request-body validation (part of
the Request Gateway, outside src/) rejects a body violating the declared field
constraints (`SignupRequest.password` min_length 6, `ProjectUpdate.status`
pattern `^(active|archived)$`) before the handler body runs; §7 classifies
validation failures as `BadRequest`. -/
def validationErr : Err := ⟨.badRequest, "Invalid request body"⟩

/-! ## Documents and store state -/

/-- A document of the `user` collection.  All fields the handlers touch are
present; `usage_count` is absent in a fresh document and only ever written via
`$inc`, which treats absent as 0, so it is modelled as a Nat starting at 0;
an absent `password_salt` is modelled as `""` (both are falsy in
`_hash_password`). -/
structure UserDoc where
  id : Nat
  name : String
  email : String
  plan : String
  password_hash : String
  password_salt : String
  api_key : String
  usage_count : Nat
  created_at : Nat
  updated_at : Nat
deriving Repr, DecidableEq

/-- A document of the `project` collection. -/
structure ProjectDoc where
  id : Nat
  owner_email : String
  name : String
  description : Option String
  status : String
  created_at : Nat
  updated_at : Nat
deriving Repr, DecidableEq

/-- The document store plus the ambient clock.  `nextId` models the
store-generated ObjectIds (`insert_one(...).inserted_id`); `clock` models the
wall clock read by `_now()`, bumped at each call so successive reads are
monotone. -/
structure DB where
  users : List UserDoc
  projects : List ProjectDoc
  nextId : Nat
  clock : Nat
deriving Repr, DecidableEq

/-- `_now()` (src/main.py line 34). -/
def nowClock (s : DB) : Nat × DB := (s.clock, { s with clock := s.clock + 1 })

/-- Mongo `update_one`: modify the first matching document. -/
def updateFirst (p : α → Bool) (f : α → α) : List α → List α
  | [] => []
  | x :: xs => if p x then f x :: xs else x :: updateFirst p f xs

/-- Mongo `delete_one`: remove the first matching document. -/
def removeFirst (p : α → Bool) : List α → List α
  | [] => []
  | x :: xs => if p x then xs else x :: removeFirst p xs

/-- Hex digit value, as accepted by `bson.ObjectId`. -/
def hexVal (c : Char) : Option Nat :=
  if '0' ≤ c ∧ c ≤ '9' then some (c.toNat - 48)
  else if 'a' ≤ c ∧ c ≤ 'f' then some (c.toNat - 87)
  else if 'A' ≤ c ∧ c ≤ 'F' then some (c.toNat - 55)
  else none

/-- `bson.ObjectId(s)` succeeds exactly on a 24-character hex string; the
resulting id is identified with its numeric value. -/
def parseOid (s : String) : Option Nat :=
  if s.length = 24 ∧ s.data.all (fun c => (hexVal c).isSome) then
    some (s.data.foldl (fun a c => a * 16 + (hexVal c).getD 0) 0)
  else none

def natToHexAux : Nat → Nat → List Char
  | 0, _ => []
  | d + 1, n => natToHexAux d (n / 16) ++ [hexDigitChar (n % 16)]

/-- `str(oid)`: the 24-character lowercase hex rendering of an ObjectId. -/
def oidToString (n : Nat) : String := String.mk (natToHexAux 24 n)

/-- `get_user_by_email` (src/main.py lines 73–74): Mongo `find_one`, i.e. the
first matching document in insertion order. -/
def get_user_by_email (email : String) (s : DB) : Option UserDoc :=
  s.users.find? (fun u => u.email == email)

/-- `get_user_by_api_key` (src/main.py lines 77–78). -/
def get_user_by_api_key (k : String) (s : DB) : Option UserDoc :=
  s.users.find? (fun u => u.api_key == k)

/-! ## Response payloads -/

structure SignupOut where
  id : String
  api_key : String
  plan : String
  name : String
  email : String
deriving Repr, DecidableEq

structure LoginOut where
  api_key : String
  plan : String
  name : String
  email : String
deriving Repr, DecidableEq

structure MeOut where
  name : String
  email : String
  plan : String
  api_key : String
deriving Repr, DecidableEq

structure ProjectOut where
  id : String
  name : String
  description : Option String
  status : String
  owner_email : String
  created_at : Nat
  updated_at : Nat
deriving Repr, DecidableEq

structure AnalyzeOut where
  email : String
  plan : String
  words : Nat
  characters : Nat
  preview : String
deriving Repr, DecidableEq

/-- Building a `ProjectOut` from a stored document (lines 182–192 etc.).  The
`d.get(..., default)` fallbacks for status/created_at/updated_at never fire
because every stored project document carries all fields, so they are omitted. -/
def toProjectOut (d : ProjectDoc) : ProjectOut :=
  { id := oidToString d.id, name := d.name, description := d.description,
    status := d.status, owner_email := d.owner_email,
    created_at := d.created_at, updated_at := d.updated_at }

/-! ## Handlers -/

/-- `signup` (src/main.py lines 114–131).  `freshSalt` is the
`secrets.token_hex(16)` drawn inside `_hash_password`; `freshApiKey` the
`secrets.token_hex(24)` at line 119. -/
def signup (name email password : String) (freshSalt freshApiKey : String) (s : DB) :
    Except Err SignupOut × DB :=
  match get_user_by_email email s with
  | some _ => (.error ⟨.conflict, "Email already registered"⟩, s)
  | none =>
    let hp := hashPassword password none freshSalt
    let t1s := nowClock s
    let t2s := nowClock t1s.2
    let s2 := t2s.2
    let uid := s2.nextId
    let u : UserDoc :=
      { id := uid, name := name, email := email, plan := "free",
        password_hash := hp.1, password_salt := hp.2, api_key := freshApiKey,
        usage_count := 0, created_at := t1s.1, updated_at := t2s.1 }
    (.ok { id := oidToString uid, api_key := freshApiKey, plan := "free",
           name := name, email := email },
     { s2 with users := s2.users ++ [u], nextId := uid + 1 })

/-- `POST /auth/signup` including the gateway's pydantic validation of
`SignupRequest` (line 42: password min_length 6).  Email-syntax validation
(`EmailStr`) is not modelled; no claim depends on it. -/
def signupRoute (name email password freshSalt freshApiKey : String) (s : DB) :
    Except Err SignupOut × DB :=
  if password.length < 6 then (.error validationErr, s)
  else signup name email password freshSalt freshApiKey s

/-- `login` (src/main.py lines 134–147).  `freshSalt` is drawn inside
`_hash_password` only when the stored salt is falsy. -/
def login (email password : String) (freshSalt : String) (s : DB) :
    Except Err LoginOut × DB :=
  match get_user_by_email email s with
  | none => (.error ⟨.unauthorized, "Invalid credentials"⟩, s)
  | some user =>
    let expected := (hashPassword password (some user.password_salt) freshSalt).1
    if expected ≠ user.password_hash then
      (.error ⟨.unauthorized, "Invalid credentials"⟩, s)
    else
      (.ok { api_key := user.api_key, plan := user.plan,
             name := user.name, email := user.email }, s)

/-- `me` (src/main.py lines 150–162).  Python `if not x_api_key` treats both an
absent header and the empty string as missing. -/
def me (apiKey : Option String) (s : DB) : Except Err MeOut × DB :=
  match apiKey with
  | none => (.error ⟨.unauthorized, "Missing API key"⟩, s)
  | some k =>
    if k = "" then (.error ⟨.unauthorized, "Missing API key"⟩, s)
    else
      match get_user_by_api_key k s with
      | none => (.error ⟨.unauthorized, "Invalid API key"⟩, s)
      | some user =>
        (.ok { name := user.name, email := user.email, plan := user.plan,
               api_key := user.api_key }, s)

/-- `require_user` (src/main.py lines 167–173). -/
def require_user (apiKey : Option String) (s : DB) : Except Err UserDoc :=
  match apiKey with
  | none => .error ⟨.unauthorized, "Missing API key"⟩
  | some k =>
    if k = "" then .error ⟨.unauthorized, "Missing API key"⟩
    else
      match get_user_by_api_key k s with
      | none => .error ⟨.unauthorized, "Invalid API key"⟩
      | some user => .ok user

/-- `list_projects` (src/main.py lines 176–193): filter by owner, Mongo
`sort("created_at", -1)` (descending). -/
def list_projects (apiKey : Option String) (s : DB) :
    Except Err (List ProjectOut) × DB :=
  match require_user apiKey s with
  | .error e => (.error e, s)
  | .ok user =>
    let docs := (s.projects.filter (fun p => p.owner_email == user.email)).mergeSort
        (fun a b => decide (b.created_at ≤ a.created_at))
    (.ok (docs.map toProjectOut), s)

/-- `create_project` (src/main.py lines 196–217). -/
def create_project (name : String) (description : Option String)
    (apiKey : Option String) (s : DB) : Except Err ProjectOut × DB :=
  match require_user apiKey s with
  | .error e => (.error e, s)
  | .ok user =>
    let t1s := nowClock s
    let t2s := nowClock t1s.2
    let s2 := t2s.2
    let pid := s2.nextId
    let doc : ProjectDoc :=
      { id := pid, owner_email := user.email, name := name,
        description := description, status := "active",
        created_at := t1s.1, updated_at := t2s.1 }
    let s3 := { s2 with projects := s2.projects ++ [doc], nextId := pid + 1 }
    match s3.projects.find? (fun p => p.id == pid) with
    | some d => (.ok (toProjectOut d), s3)
    | none => (.error ⟨.internal, "Internal Server Error"⟩, s3)

/-- `ProjectUpdate` (src/main.py lines 55–58) with pydantic unset-tracking:
`none` = field absent from the request body, `some none` = field explicitly
null, `some (some v)` = field present with value `v`
(`payload.dict(exclude_unset=True)` keeps the last two and drops the first). -/
structure ProjectUpdate where
  name : Option (Option String) := none
  description : Option (Option String) := none
  status : Option (Option String) := none
deriving Repr, DecidableEq

/-- The fields actually applied by line 232: explicitly present AND non-null
(`{k: v for k, v in payload.dict(exclude_unset=True).items() if v is not None}`). -/
def presentValue : Option (Option String) → Option String
  | some (some v) => some v
  | _ => none

/-- pydantic's pattern check on `ProjectUpdate.status` (line 58): a present
non-null value must match `^(active|archived)$`; null or absent passes. -/
def validStatusField : Option (Option String) → Bool
  | some (some v) => v == "active" || v == "archived"
  | _ => true

/-- The `$set` applied by lines 232–236: present non-null patch fields plus a
fresh `updated_at`, merged into the stored document. -/
def applyPatch (patch : ProjectUpdate) (t : Nat) (p : ProjectDoc) : ProjectDoc :=
  { p with
    name := (presentValue patch.name).getD p.name,
    description := match presentValue patch.description with
      | some v => some v
      | none => p.description,
    status := (presentValue patch.status).getD p.status,
    updated_at := t }

/-- `update_project` handler body (src/main.py lines 220–246), entered with an
already-validated `ProjectUpdate`. -/
def update_project (projectId : String) (patch : ProjectUpdate)
    (apiKey : Option String) (s : DB) : Except Err ProjectOut × DB :=
  match require_user apiKey s with
  | .error e => (.error e, s)
  | .ok user =>
    match parseOid projectId with
    | none => (.error ⟨.badRequest, "Invalid project id"⟩, s)
    | some oid =>
      match s.projects.find? (fun p => p.id == oid && p.owner_email == user.email) with
      | none => (.error ⟨.notFound, "Project not found"⟩, s)
      | some _ =>
        let ts := nowClock s
        let s1 := ts.2
        let projects1 := updateFirst (fun p => p.id == oid) (applyPatch patch ts.1)
            s1.projects
        let s2 := { s1 with projects := projects1 }
        match s2.projects.find? (fun p => p.id == oid) with
        | some d => (.ok (toProjectOut d), s2)
        | none => (.error ⟨.internal, "Internal Server Error"⟩, s2)

/-- `PATCH /projects/{id}` including the gateway's pydantic validation of the
`status` pattern, which runs before the handler body. -/
def update_projectRoute (projectId : String) (patch : ProjectUpdate)
    (apiKey : Option String) (s : DB) : Except Err ProjectOut × DB :=
  if validStatusField patch.status then update_project projectId patch apiKey s
  else (.error validationErr, s)

/-- `delete_project` (src/main.py lines 249–260): `delete_one` on the
ownership-scoped filter, then 404 iff `deleted_count == 0`.  The constant
success payload `{ok: true}` is modelled as `Unit`. -/
def delete_project (projectId : String) (apiKey : Option String) (s : DB) :
    Except Err Unit × DB :=
  match require_user apiKey s with
  | .error e => (.error e, s)
  | .ok user =>
    match parseOid projectId with
    | none => (.error ⟨.badRequest, "Invalid project id"⟩, s)
    | some oid =>
      let q := fun p : ProjectDoc => p.id == oid && p.owner_email == user.email
      if s.projects.any q then
        (.ok (), { s with projects := removeFirst q s.projects })
      else
        (.error ⟨.notFound, "Project not found"⟩, s)

/-- Python `str.strip()` with no argument: drop leading and trailing
whitespace.  Whitespace is `Char.isWhitespace` (space/tab/CR/LF); Python
strips a few rarer code points too, which no claim exercises. -/
def pyStrip (s : String) : String :=
  String.mk (((s.data.dropWhile Char.isWhitespace).reverse.dropWhile
    Char.isWhitespace).reverse)

def pySplitAux : List Char → List Char → List String
  | [], acc => if acc = [] then [] else [String.mk acc.reverse]
  | c :: cs, acc =>
    if c.isWhitespace then
      if acc = [] then pySplitAux cs []
      else String.mk acc.reverse :: pySplitAux cs []
    else pySplitAux cs (c :: acc)

/-- Python `str.split()` with no argument: whitespace-delimited tokens with
empty strings discarded (same whitespace caveat as `pyStrip`). -/
def pySplit (s : String) : List String := pySplitAux s.data []

/-- Python slicing `text[:80]`: the first 80 characters. -/
def pyTake (n : Nat) (s : String) : String := String.mk (s.data.take n)

/-- `analyze_text` (src/main.py lines 268–285).  The usage update is Mongo
`update_one` with `$inc usage_count` and `$set updated_at`. -/
def analyze_text (textRaw : String) (apiKey : Option String) (s : DB) :
    Except Err AnalyzeOut × DB :=
  match require_user apiKey s with
  | .error e => (.error e, s)
  | .ok user =>
    let text := pyStrip textRaw
    if text = "" then (.error ⟨.badRequest, "Text required"⟩, s)
    else
      let result : AnalyzeOut :=
        { email := user.email, plan := user.plan,
          words := (pySplit text).length, characters := text.length,
          preview := pyTake 80 text }
      let ts := nowClock s
      let users1 := updateFirst (fun u => u.email == user.email)
          (fun u => { u with usage_count := u.usage_count + 1, updated_at := ts.1 })
          ts.2.users
      (.ok result, { ts.2 with users := users1 })

/-! ## Helper lemmas -/

theorem find?_updateFirst {α} {p : α → Bool} {f : α → α} {l : List α} {x : α}
    (hx : l.find? p = some x) (hfx : p (f x) = true) :
    (updateFirst p f l).find? p = some (f x) := by
  induction l with
  | nil => simp [List.find?] at hx
  | cons a l ih =>
    by_cases h : p a = true
    · rw [List.find?_cons_of_pos _ h] at hx
      injection hx with hx
      subst hx
      simp [updateFirst, h, List.find?_cons_of_pos _ hfx]
    · rw [List.find?_cons_of_neg _ h] at hx
      simp only [updateFirst, if_neg h]
      rw [List.find?_cons_of_neg _ h]
      exact ih hx

theorem find?_and_right {α} {p q : α → Bool} {l : List α} {x : α}
    (h : l.find? p = some x) (hq : q x = true) :
    l.find? (fun y => p y && q y) = some x := by
  induction l with
  | nil => simp [List.find?] at h
  | cons a l ih =>
    by_cases hp : p a = true
    · rw [List.find?_cons_of_pos _ hp] at h
      injection h with h
      subst h
      exact List.find?_cons_of_pos _ (by simp [hp, hq])
    · rw [List.find?_cons_of_neg _ hp] at h
      rw [List.find?_cons_of_neg _ (by simp [hp]), ih h]

/-- `require_user` reads only the `user` collection. -/
theorem require_user_projects_independent (key : Option String) (s : DB)
    (ps : List ProjectDoc) :
    require_user key { s with projects := ps } = require_user key s := rfl

/-- Every `require_user` failure is an Unauthorized error. -/
theorem require_user_error_unauthorized {key : Option String} {s : DB} {e : Err}
    (h : require_user key s = .error e) : e.kind = .unauthorized := by
  unfold require_user at h
  cases key with
  | none => injection h with h; rw [← h]
  | some k =>
    by_cases hk : k = ""
    · simp only [if_pos hk] at h
      injection h with h; rw [← h]
    · simp only [if_neg hk] at h
      cases hfind : get_user_by_api_key k s with
      | none => rw [hfind] at h; injection h with h; rw [← h]
      | some u => rw [hfind] at h; exact absurd h (by simp)

/-! ## Concrete fixtures used by the witnesses -/

def exUser1 : UserDoc :=
  { id := 0, name := "Alice", email := "alice@example.com", plan := "free",
    password_hash := "h1", password_salt := "s1", api_key := "key1",
    usage_count := 0, created_at := 0, updated_at := 1 }

def exUser2 : UserDoc :=
  { id := 1, name := "Bob", email := "bob@example.com", plan := "pro",
    password_hash := "h2", password_salt := "s2", api_key := "key2",
    usage_count := 4, created_at := 2, updated_at := 3 }

def exProj1 : ProjectDoc :=
  { id := 10, owner_email := "alice@example.com", name := "P1",
    description := none, status := "active", created_at := 5, updated_at := 6 }

def exProj2 : ProjectDoc :=
  { id := 11, owner_email := "bob@example.com", name := "P2",
    description := some "d", status := "active", created_at := 7, updated_at := 8 }

def exDB : DB :=
  { users := [exUser1, exUser2], projects := [exProj1, exProj2],
    nextId := 20, clock := 100 }

def exProj3 : ProjectDoc :=
  { id := 12, owner_email := "alice@example.com", name := "P3",
    description := none, status := "archived", created_at := 9, updated_at := 9 }

def exDB2 : DB :=
  { users := [exUser1, exUser2], projects := [exProj1, exProj2, exProj3],
    nextId := 20, clock := 100 }

/-! ## Claims -/

/-- C1: for every authenticated identity and every project id, `update_project`
and `delete_project` fail with NotFound both when no project with that id
exists and when one exists but is owned by a different identity (the
hypothesis covers both cases at once), and the error kind and message are the
literally identical `⟨notFound, "Project not found"⟩` in the two operations
and both cases; the store is left unchanged. -/
theorem update_delete_notFound_identical
    (s : DB) (key : Option String) (u : UserDoc) (pidStr : String) (oid : Nat)
    (patch : ProjectUpdate)
    (hauth : require_user key s = .ok u)
    (hpid : parseOid pidStr = some oid)
    (hnotown : ∀ p ∈ s.projects, p.id = oid → p.owner_email ≠ u.email) :
    update_project pidStr patch key s = (.error ⟨.notFound, "Project not found"⟩, s) ∧
    delete_project pidStr key s = (.error ⟨.notFound, "Project not found"⟩, s) := by
  have hfind : s.projects.find?
      (fun p => p.id == oid && p.owner_email == u.email) = none := by
    rw [List.find?_eq_none]
    intro p hp
    simp only [Bool.and_eq_true, beq_iff_eq, not_and]
    exact fun h1 => hnotown p hp h1
  have hany : s.projects.any
      (fun p => p.id == oid && p.owner_email == u.email) = false := by
    rw [List.any_eq_false]
    intro p hp
    simp only [Bool.and_eq_true, beq_iff_eq, not_and]
    exact fun h1 => hnotown p hp h1
  constructor
  · simp [update_project, hauth, hpid, hfind]
  · simp [delete_project, hauth, hpid, hany]

/-- Witness for C1: in `exDB`, Alice (key1) gets the same NotFound error both
for project 11 (exists, owned by Bob) and for project 99 (does not exist). -/
theorem update_delete_notFound_identical_witness :
    update_project (oidToString 11) {} (some "key1") exDB =
      (.error ⟨.notFound, "Project not found"⟩, exDB) ∧
    delete_project (oidToString 11) (some "key1") exDB =
      (.error ⟨.notFound, "Project not found"⟩, exDB) ∧
    update_project (oidToString 99) {} (some "key1") exDB =
      (.error ⟨.notFound, "Project not found"⟩, exDB) ∧
    delete_project (oidToString 99) (some "key1") exDB =
      (.error ⟨.notFound, "Project not found"⟩, exDB) := by
  have h1 := update_delete_notFound_identical exDB (some "key1") exUser1
    (oidToString 11) 11 {} rfl (by decide) (by decide)
  have h2 := update_delete_notFound_identical exDB (some "key1") exUser1
    (oidToString 99) 99 {} rfl (by decide) (by decide)
  exact ⟨h1.1, h1.2, h2.1, h2.2⟩

/-- C3: `login` fails with the literally identical error
`⟨unauthorized, "Invalid credentials"⟩` both when no identity matches the
email and when the digest recomputed from the stored salt and the supplied
password differs from the stored digest, so the response does not reveal
whether the email exists; the store is unchanged in both cases. -/
theorem login_unauthorized_identical
    (s : DB) (email pw fs : String) :
    ((∀ u ∈ s.users, u.email ≠ email) →
      login email pw fs s = (.error ⟨.unauthorized, "Invalid credentials"⟩, s)) ∧
    (∀ u, get_user_by_email email s = some u →
      (hashPassword pw (some u.password_salt) fs).1 ≠ u.password_hash →
      login email pw fs s = (.error ⟨.unauthorized, "Invalid credentials"⟩, s)) := by
  constructor
  · intro hno
    have hfind : get_user_by_email email s = none := by
      rw [get_user_by_email, List.find?_eq_none]
      intro u hu
      simp only [beq_iff_eq]
      exact hno u hu
    simp [login, hfind]
  · intro u hu hdiff
    simp [login, hu, hdiff]

/-- Witness for C3: with `exDB`, a login for an unknown email and a login for
Alice's email with a wrong password produce the same Unauthorized error. -/
theorem login_unauthorized_identical_witness :
    login "nobody@example.com" "pw1234" "fs" exDB =
      (.error ⟨.unauthorized, "Invalid credentials"⟩, exDB) ∧
    login "alice@example.com" "pw1234" "fs" exDB =
      (.error ⟨.unauthorized, "Invalid credentials"⟩, exDB) := by
  constructor
  · exact (login_unauthorized_identical exDB "nobody@example.com" "pw1234" "fs").1
      (by decide)
  · exact (login_unauthorized_identical exDB "alice@example.com" "pw1234" "fs").2
      exUser1 rfl (by decide)

/-- C2: `signup` fails with Conflict (raised by the source as status 400,
"Email already registered") when an identity with the given email already
exists, leaving the store unchanged (no insert); with an email not present it
succeeds and returns the freshly drawn api_key, under which `me` immediately
resolves the same identity.  The freshness hypotheses encode the randomness
contract of `secrets.token_hex` (the drawn key is nonempty and collides with
no stored key).  Pydantic validation of the request body (password
min_length 6, email syntax) happens upstream in the gateway; this theorem is
about the handler on a validated body. -/
theorem signup_conflict_and_fresh_me
    (s : DB) (nm email pw salt key : String) (hkey : key ≠ "") :
    ((∃ u ∈ s.users, u.email = email) →
      signup nm email pw salt key s =
        (.error ⟨.conflict, "Email already registered"⟩, s)) ∧
    ((∀ u ∈ s.users, u.email ≠ email) → (∀ u ∈ s.users, u.api_key ≠ key) →
      ∃ out s', signup nm email pw salt key s = (.ok out, s') ∧
        out.api_key = key ∧ out.email = email ∧ out.name = nm ∧
        (me (some key) s').1 = .ok ⟨nm, email, "free", key⟩) := by
  constructor
  · rintro ⟨u, hu, hemail⟩
    have hsome : (s.users.find? (fun w => w.email == email)).isSome := by
      rw [List.find?_isSome]
      exact ⟨u, hu, by simp [hemail]⟩
    cases hfind : get_user_by_email email s with
    | none => rw [get_user_by_email] at hfind; rw [hfind] at hsome; simp at hsome
    | some w => simp [signup, hfind]
  · intro hno hfresh
    have hfind : get_user_by_email email s = none := by
      rw [get_user_by_email, List.find?_eq_none]
      intro u hu
      simp only [beq_iff_eq]
      exact hno u hu
    refine ⟨{ id := oidToString s.nextId, api_key := key, plan := "free",
              name := nm, email := email },
            { s with
              users := s.users ++
                [{ id := s.nextId, name := nm, email := email, plan := "free",
                   password_hash := (hashPassword pw none salt).1,
                   password_salt := (hashPassword pw none salt).2,
                   api_key := key, usage_count := 0,
                   created_at := s.clock, updated_at := s.clock + 1 }],
              nextId := s.nextId + 1, clock := s.clock + 2 }, ?_, rfl, rfl, rfl, ?_⟩
    · simp [signup, hfind, nowClock]
    · have h1 : s.users.find? (fun u => u.api_key == key) = none := by
        rw [List.find?_eq_none]
        intro u hu
        simp only [beq_iff_eq]
        exact hfresh u hu
      have hfk : ((s.users ++
          [{ id := s.nextId, name := nm, email := email, plan := "free",
             password_hash := (hashPassword pw none salt).1,
             password_salt := (hashPassword pw none salt).2,
             api_key := key, usage_count := 0,
             created_at := s.clock, updated_at := s.clock + 1 } ]) :
            List UserDoc).find? (fun u => u.api_key == key) =
          some { id := s.nextId, name := nm, email := email, plan := "free",
                 password_hash := (hashPassword pw none salt).1,
                 password_salt := (hashPassword pw none salt).2,
                 api_key := key, usage_count := 0,
                 created_at := s.clock, updated_at := s.clock + 1 } := by
        rw [List.find?_append, h1]
        simp [List.find?]
      simp [me, hkey, get_user_by_api_key, hfk]

/-- Witness for C2: on `exDB`, signing up with Alice's email hits the
Conflict error without touching the store, while a fresh email succeeds and
the returned api_key immediately authenticates via `me`. -/
theorem signup_conflict_and_fresh_me_witness :
    signup "X" "alice@example.com" "pw1234" "sx" "key9" exDB =
      (.error ⟨.conflict, "Email already registered"⟩, exDB) ∧
    ∃ out s', signup "Carol" "carol@example.com" "pw1234" "sx" "key9" exDB =
        (.ok out, s') ∧
      out.api_key = "key9" ∧ out.email = "carol@example.com" ∧ out.name = "Carol" ∧
      (me (some "key9") s').1 = .ok ⟨"Carol", "carol@example.com", "free", "key9"⟩ := by
  constructor
  · exact (signup_conflict_and_fresh_me exDB "X" "alice@example.com" "pw1234" "sx"
      "key9" (by decide)).1 (by decide)
  · exact (signup_conflict_and_fresh_me exDB "Carol" "carol@example.com" "pw1234" "sx"
      "key9" (by decide)).2 (by decide) (by decide)

/-- C6: for every authenticated identity, `analyze_text` fails with BadRequest
(status 400, "Text required") exactly when the whitespace-trimmed text is
empty (leaving the store unchanged), and otherwise returns the number of
whitespace-delimited tokens of the trimmed text as `words`, the length of the
trimmed text (not of the original) as `characters`, and the first 80
characters of the trimmed text as `preview`. -/
theorem analyze_text_correct
    (s : DB) (key : Option String) (u : UserDoc) (textRaw : String)
    (hauth : require_user key s = .ok u) :
    (pyStrip textRaw = "" →
      analyze_text textRaw key s = (.error ⟨.badRequest, "Text required"⟩, s)) ∧
    (pyStrip textRaw ≠ "" →
      (analyze_text textRaw key s).1 =
        .ok { email := u.email, plan := u.plan,
              words := (pySplit (pyStrip textRaw)).length,
              characters := (pyStrip textRaw).length,
              preview := pyTake 80 (pyStrip textRaw) }) := by
  constructor
  · intro htrim
    simp [analyze_text, hauth, htrim]
  · intro htrim
    simp [analyze_text, hauth, htrim]

/-- Witness for C6: the spec's example, `analyze("  hello world  ")`, returns
words = 2, characters = 11 = len("hello world"), preview = "hello world". -/
theorem analyze_text_correct_witness :
    pyStrip "  hello world  " ≠ "" ∧
    (analyze_text "  hello world  " (some "key1") exDB).1 =
      .ok { email := "alice@example.com", plan := "free", words := 2,
            characters := 11, preview := "hello world" } := by
  refine ⟨by decide, ?_⟩
  have h := (analyze_text_correct exDB (some "key1") exUser1 "  hello world  "
    rfl).2 (by decide)
  rw [h]
  rfl

/-- C5: on an owned project, `update_project` applies exactly the patch fields
that are explicitly present and non-null; absent fields (`none`) and fields
explicitly set to null (`some none`) preserve their prior values;
`owner_email`, `created_at` and `id` are never changed; and `updated_at` is
set to the time drawn during the call (= `s.clock`) for every patch, the
empty one included.  `p` is the stored project with the requested id
(hypotheses: it is first for its id, as Mongo's unique `_id` index
guarantees, and owned by the caller). -/
theorem update_project_applies_patch
    (s : DB) (key : Option String) (u : UserDoc) (pidStr : String) (oid : Nat)
    (patch : ProjectUpdate) (p : ProjectDoc)
    (hauth : require_user key s = .ok u)
    (hpid : parseOid pidStr = some oid)
    (hfirst : s.projects.find? (fun q => q.id == oid) = some p)
    (hown : p.owner_email = u.email)
    (hst : validStatusField patch.status = true) :
    ∃ q s', update_projectRoute pidStr patch key s = (.ok (toProjectOut q), s') ∧
      s'.projects.find? (fun r => r.id == oid) = some q ∧
      s'.projects = updateFirst (fun r => r.id == oid) (applyPatch patch s.clock)
        s.projects ∧
      q.id = p.id ∧ q.owner_email = p.owner_email ∧ q.created_at = p.created_at ∧
      q.updated_at = s.clock ∧
      ((patch.name = none ∨ patch.name = some none) → q.name = p.name) ∧
      (∀ v, patch.name = some (some v) → q.name = v) ∧
      ((patch.description = none ∨ patch.description = some none) →
        q.description = p.description) ∧
      (∀ v, patch.description = some (some v) → q.description = some v) ∧
      ((patch.status = none ∨ patch.status = some none) → q.status = p.status) ∧
      (∀ v, patch.status = some (some v) → q.status = v) := by
  have hpoid : (p.id == oid) = true := by simpa using List.find?_some hfirst
  have hownfind : s.projects.find?
      (fun q => q.id == oid && q.owner_email == u.email) = some p :=
    find?_and_right hfirst (by simp [hown])
  have hfx : ((applyPatch patch s.clock p).id == oid) = true := by
    simpa [applyPatch] using hpoid
  have hupd : (updateFirst (fun r => r.id == oid) (applyPatch patch s.clock)
      s.projects).find? (fun r => r.id == oid) =
      some (applyPatch patch s.clock p) :=
    find?_updateFirst hfirst hfx
  refine ⟨applyPatch patch s.clock p,
    { s with clock := s.clock + 1,
             projects := updateFirst (fun r => r.id == oid)
               (applyPatch patch s.clock) s.projects },
    ?_, hupd, rfl, rfl, rfl, rfl, rfl, ?_, ?_, ?_, ?_, ?_, ?_⟩
  · simp [update_projectRoute, hst, update_project, hauth, hpid, hownfind,
      nowClock, hupd]
  · rintro (h | h) <;> simp [applyPatch, presentValue, h]
  · intro v h; simp [applyPatch, presentValue, h]
  · rintro (h | h) <;> simp [applyPatch, presentValue, h]
  · intro v h; simp [applyPatch, presentValue, h]
  · rintro (h | h) <;> simp [applyPatch, presentValue, h]
  · intro v h; simp [applyPatch, presentValue, h]

/-- Witness for C5: Alice patches project 10 with name N2 present,
description explicitly null, status absent: only `name` and `updated_at`
change; the explicit-null description and the absent status keep their prior
values, as do owner, id and created_at. -/
theorem update_project_applies_patch_witness :
    ∃ q s', update_projectRoute (oidToString 10)
        ⟨some (some "N2"), some none, none⟩ (some "key1") exDB =
        (.ok (toProjectOut q), s') ∧
      q.name = "N2" ∧ q.description = none ∧ q.status = "active" ∧
      q.id = 10 ∧ q.owner_email = "alice@example.com" ∧
      q.created_at = 5 ∧ q.updated_at = 100 := by
  obtain ⟨q, s', h1, _, _, hid, hownq, hcr, hupd, _, hn, hd, _, hs, _⟩ :=
    update_project_applies_patch exDB (some "key1") exUser1 (oidToString 10) 10
      ⟨some (some "N2"), some none, none⟩ exProj1 rfl (by decide) rfl rfl rfl
  exact ⟨q, s', h1, hn "N2" rfl, hd (Or.inr rfl), hs (Or.inl rfl),
    hid, hownq, hcr, hupd⟩

/-- C7: a successful `analyze_text` call replaces the caller's user document
by one with `usage_count` incremented by exactly 1 and `updated_at` refreshed
to the drawn time, touching no other user document; and none of login, me,
list, create, update, delete ever changes any document of the `user`
collection (their resulting `users` list is exactly the input one). -/
theorem usage_metering_only_analyze
    (s : DB) (key : Option String) (u : UserDoc) (textRaw : String)
    (email pw fs nm pidStr : String) (descO : Option String)
    (patch : ProjectUpdate) (key2 : Option String)
    (hauth : require_user key s = .ok u)
    (htext : pyStrip textRaw ≠ "")
    (hfirst : get_user_by_email u.email s = some u) :
    (analyze_text textRaw key s).2.users =
      updateFirst (fun w => w.email == u.email)
        (fun w => { w with usage_count := w.usage_count + 1,
                           updated_at := s.clock }) s.users ∧
    (analyze_text textRaw key s).2.users.find? (fun w => w.email == u.email) =
      some { u with usage_count := u.usage_count + 1, updated_at := s.clock } ∧
    (login email pw fs s).2.users = s.users ∧
    (me key2 s).2.users = s.users ∧
    (list_projects key2 s).2.users = s.users ∧
    (create_project nm descO key2 s).2.users = s.users ∧
    (update_projectRoute pidStr patch key2 s).2.users = s.users ∧
    (delete_project pidStr key2 s).2.users = s.users := by
  have hana : (analyze_text textRaw key s).2.users =
      updateFirst (fun w => w.email == u.email)
        (fun w => { w with usage_count := w.usage_count + 1,
                           updated_at := s.clock }) s.users := by
    simp [analyze_text, hauth, htext, nowClock]
  refine ⟨hana, ?_, ?_, ?_, ?_, ?_, ?_, ?_⟩
  · rw [hana]
    have hu : s.users.find? (fun w => w.email == u.email) = some u := hfirst
    exact find?_updateFirst hu (by simp)
  · unfold login
    split
    · rfl
    · dsimp only
      split <;> rfl
  · unfold me
    split
    · rfl
    · split
      · rfl
      · split <;> rfl
  · unfold list_projects
    split <;> rfl
  · unfold create_project
    split
    · rfl
    · dsimp only
      split <;> rfl
  · unfold update_projectRoute
    split
    · unfold update_project
      split
      · rfl
      · split
        · rfl
        · split
          · rfl
          · dsimp only
            split <;> rfl
    · rfl
  · unfold delete_project
    split
    · rfl
    · split
      · rfl
      · dsimp only
        split <;> rfl

/-- Witness for C7: Alice's analyze call on `exDB` bumps her usage_count from
0 to 1 and stamps `updated_at` with the clock, while the other operations
leave the user collection exactly as it was. -/
theorem usage_metering_only_analyze_witness :
    (analyze_text "hi" (some "key1") exDB).2.users.find?
        (fun w => w.email == "alice@example.com") =
      some { exUser1 with usage_count := 1, updated_at := 100 } ∧
    (login "x@y.com" "pw" "f" exDB).2.users = exDB.users ∧
    (me (some "key2") exDB).2.users = exDB.users ∧
    (list_projects (some "key2") exDB).2.users = exDB.users ∧
    (create_project "P" none (some "key2") exDB).2.users = exDB.users ∧
    (update_projectRoute (oidToString 11) {} (some "key2") exDB).2.users =
      exDB.users ∧
    (delete_project (oidToString 11) (some "key2") exDB).2.users = exDB.users := by
  obtain ⟨_, h2, h3, h4, h5, h6, h7, h8⟩ :=
    usage_metering_only_analyze exDB (some "key1") exUser1 "hi" "x@y.com" "pw"
      "f" "P" (oidToString 11) none {} (some "key2") rfl (by decide) rfl
  exact ⟨h2, h3, h4, h5, h6, h7, h8⟩

/-- C8: for every authenticated identity, `list_projects` succeeds (never an
error, an empty list when the identity owns nothing), returns exactly the
projects whose `owner_email` equals the identity's email (a permutation of
the owner-filtered store), and the result is ordered by `created_at`
descending. -/
theorem list_projects_owned_sorted
    (s : DB) (key : Option String) (u : UserDoc)
    (hauth : require_user key s = .ok u) :
    ∃ r, list_projects key s = (.ok r, s) ∧
      (∀ o ∈ r, o.owner_email = u.email) ∧
      r.Perm ((s.projects.filter (fun p => p.owner_email == u.email)).map
        toProjectOut) ∧
      r.Pairwise (fun a b => b.created_at ≤ a.created_at) ∧
      ((∀ p ∈ s.projects, p.owner_email ≠ u.email) → r = []) := by
  refine ⟨((s.projects.filter (fun p => p.owner_email == u.email)).mergeSort
      (fun a b => decide (b.created_at ≤ a.created_at))).map toProjectOut,
    ?_, ?_, ?_, ?_, ?_⟩
  · simp [list_projects, hauth]
  · intro o ho
    obtain ⟨d, hd, rfl⟩ := List.mem_map.mp ho
    have hd' := List.mem_mergeSort.mp hd
    have := (List.mem_filter.mp hd').2
    simpa [toProjectOut] using this
  · exact List.Perm.map toProjectOut (List.mergeSort_perm _ _)
  · refine List.Pairwise.map toProjectOut (fun a b h => ?_)
      (List.sorted_mergeSort
        (fun a b c hab hbc => ?_) (fun a b => ?_) _)
    · simpa [toProjectOut] using of_decide_eq_true h
    · have h1 := of_decide_eq_true hab
      have h2 := of_decide_eq_true hbc
      exact decide_eq_true (Nat.le_trans h2 h1)
    · rcases Nat.le_total a.created_at b.created_at with h | h <;>
        simp [h]
  · intro hnone
    have hfil : s.projects.filter (fun p => p.owner_email == u.email) = [] := by
      rw [List.filter_eq_nil_iff]
      intro p hp
      simp only [beq_iff_eq]
      exact hnone p hp
    rw [hfil]
    simp

/-- Witness for C8: in `exDB2` Alice owns projects created at times 5 and 9;
the listing is most-recent first and all entries are hers. -/
theorem list_projects_owned_sorted_witness :
    ∃ r, list_projects (some "key1") exDB2 = (.ok r, exDB2) ∧
      (∀ o ∈ r, o.owner_email = "alice@example.com") ∧
      r.Pairwise (fun a b => b.created_at ≤ a.created_at) := by
  obtain ⟨r, h1, h2, _, h4, _⟩ :=
    list_projects_owned_sorted exDB2 (some "key1") exUser1 rfl
  exact ⟨r, h1, h2, h4⟩

/-- C9: an update request whose patch carries a status value outside
{active, archived} is rejected by the gateway's pydantic validation with the
spec's BadRequest kind, for every store state and key, with the state
returned unchanged — i.e. before any read or write of the store and before
authentication or id parsing. -/
theorem update_invalid_status_rejected
    (s : DB) (pidStr : String) (key : Option String) (patch : ProjectUpdate)
    (v : String) (hv : patch.status = some (some v))
    (hv1 : v ≠ "active") (hv2 : v ≠ "archived") :
    update_projectRoute pidStr patch key s = (.error validationErr, s) := by
  have hbad : validStatusField patch.status = false := by
    rw [hv]
    simp [validStatusField, hv1, hv2]
  simp [update_projectRoute, hbad]

/-- Witness for C9: a patch with status "deleted" is rejected on `exDB` even
with a valid key and a well-formed id, and the store is untouched. -/
theorem update_invalid_status_rejected_witness :
    update_projectRoute (oidToString 10) ⟨none, none, some (some "deleted")⟩
      (some "key1") exDB = (.error validationErr, exDB) :=
  update_invalid_status_rejected exDB (oidToString 10) (some "key1")
    ⟨none, none, some (some "deleted")⟩ "deleted" rfl (by decide) (by decide)

/-- C10: when the API key is missing (absent or empty header) or matches no
identity, `update_project` and `delete_project` fail with the Unauthorized
error produced by `require_user`, whatever the project-id string is (malformed
included — never BadRequest), the store is returned unchanged, and the outcome
is the same for every content of the `project` collection (no project document
is read, written, or deleted). -/
theorem unauthorized_before_id_parse
    (s : DB) (key : Option String) (pidStr : String) (patch : ProjectUpdate)
    (hkey : ∀ k, key = some k → k ≠ "" → ∀ w ∈ s.users, w.api_key ≠ k) :
    ∃ e, require_user key s = .error e ∧ e.kind = .unauthorized ∧
      update_project pidStr patch key s = (.error e, s) ∧
      delete_project pidStr key s = (.error e, s) ∧
      ∀ ps : List ProjectDoc,
        update_project pidStr patch key { s with projects := ps } =
          (.error e, { s with projects := ps }) ∧
        delete_project pidStr key { s with projects := ps } =
          (.error e, { s with projects := ps }) := by
  have herr : ∃ e, require_user key s = .error e ∧ e.kind = .unauthorized := by
    match key with
    | none => exact ⟨⟨.unauthorized, "Missing API key"⟩, rfl, rfl⟩
    | some k =>
      by_cases hk : k = ""
      · exact ⟨⟨.unauthorized, "Missing API key"⟩, by simp [require_user, hk], rfl⟩
      · have hfind : get_user_by_api_key k s = none := by
          rw [get_user_by_api_key, List.find?_eq_none]
          intro w hw
          simp only [beq_iff_eq]
          exact hkey k rfl hk w hw
        exact ⟨⟨.unauthorized, "Invalid API key"⟩,
          by simp [require_user, hk, hfind], rfl⟩
  obtain ⟨e, he, hkind⟩ := herr
  have he' : ∀ ps : List ProjectDoc,
      require_user key { s with projects := ps } = .error e := fun ps =>
    (require_user_projects_independent key s ps).trans he
  refine ⟨e, he, hkind, ?_, ?_, fun ps => ⟨?_, ?_⟩⟩
  · simp [update_project, he]
  · simp [delete_project, he]
  · simp [update_project, he' ps]
  · simp [delete_project, he' ps]

/-- Witness for C10: with an unknown key and a malformed id string, both
operations fail Unauthorized on `exDB` and the store is unchanged. -/
theorem unauthorized_before_id_parse_witness :
    ∃ e, require_user (some "badkey") exDB = .error e ∧
      e.kind = .unauthorized ∧
      update_project "!!!not-an-objectid" {} (some "badkey") exDB =
        (.error e, exDB) ∧
      delete_project "!!!not-an-objectid" (some "badkey") exDB =
        (.error e, exDB) := by
  obtain ⟨e, h1, h2, h3, h4, _⟩ :=
    unauthorized_before_id_parse exDB (some "badkey") "!!!not-an-objectid" {}
      (by decide)
  exact ⟨e, h1, h2, h3, h4⟩

end SaaS
